import Mathlib

/-!
Verification of the rttest core (jacquelinekay/rttest).

The repository ships the public header `src/include/rttest/rttest.h`
(declarations of `rttest_params`, `rttest_results` and the session API).
The implementation file (rttest.cpp) is not part of the sources, so the
behaviour of the operations is modelled from the specification; every
such definition is marked `Modelled from the spec:` in its doc comment.
Times are represented as nanosecond counts (`Int`), matching the
seconds+nanoseconds `timespec` representation via `timespec.toNs`.
-/

namespace Rttest

/-- struct timespec from time.h, as used by `rttest_params.update_period`:
seconds plus nanoseconds. -/
structure timespec where
  tv_sec : Int
  tv_nsec : Int
deriving Repr, DecidableEq

/-- Total nanoseconds represented by a `timespec`. -/
def timespec.toNs (t : timespec) : Int :=
  t.tv_sec * 1000000000 + t.tv_nsec

/-- struct rttest_params (src/include/rttest/rttest.h, lines 194-207):
the immutable-after-init configuration record of a measurement session.
`filename` is modelled as an optional string (a char pointer that may be
NULL in C). -/
structure rttest_params where
  iterations : Nat
  update_period : timespec
  sched_policy : Nat
  sched_priority : Int
  lock_memory : Bool
  stack_size : Nat
  plot : Int
  reps : Nat
  filename : Option String

/-- One sample record per iteration. Modelled from the spec (section 3,
Sample): scheduled wakeup instant, actual wakeup instant, derived signed
latency, derived jitter, and the minor/major page-fault deltas for this
iteration; the struct itself lives in the missing rttest.cpp. -/
structure Sample where
  scheduled : Int
  actual : Int
  latency : Int
  jitter : Int
  minor_pagefaults : Nat
  major_pagefaults : Nat
deriving Repr, DecidableEq

/-- Modelled from the spec (section 7): the error kinds the core reports;
the C functions encode them as distinct nonzero status values. -/
inductive RtError where
  | InvalidArgument
  | PermissionError
  | ResourceExhausted
  | ClockError
  | InvalidState
deriving Repr, DecidableEq

/-- Modelled from the spec (section 4.3): the spin-engine state machine
Idle to Armed to Spinning to Complete. -/
inductive SpinState where
  | Idle
  | Armed
  | Spinning
  | Complete
deriving Repr, DecidableEq

/-- The environment the spin loop observes: the actual wakeup instant the
clock reports after the absolute-deadline sleep of each iteration, and the
cumulative minor/major page-fault counters read after each iteration,
together with the session-baseline counter values. The engine does not
control these; they parameterize the model. -/
structure SpinEnv where
  actual : Nat → Int
  minflt : Nat → Nat
  majflt : Nat → Nat
  minflt_base : Nat
  majflt_base : Nat

/-- Modelled from the spec (section 4.3, step 1): the scheduled absolute
wakeup instant of iteration i is t0 + i * update_period, computed from the
fixed epoch t0, never from a previous actual wakeup. -/
def scheduled_wakeup (t0 period : Int) (i : Nat) : Int :=
  t0 + (i : Int) * period

/-- Modelled from the spec (section 4.3, step 5): latency of iteration i is
the signed difference between the actual and the scheduled wakeup instant. -/
def latencyAt (t0 period : Int) (env : SpinEnv) (i : Nat) : Int :=
  env.actual i - scheduled_wakeup t0 period i

/-- Modelled from the spec (section 4.3, step 5): jitter is zero for
iteration 0 and the difference of consecutive latencies afterwards. -/
def jitterAt (t0 period : Int) (env : SpinEnv) : Nat → Int
  | 0 => 0
  | i + 1 => latencyAt t0 period env (i + 1) - latencyAt t0 period env i

/-- Modelled from the spec (section 4.3, step 5): the page-fault delta for
iteration i, against the session baseline for i = 0 and against the previous
reading afterwards. -/
def rusageDelta (baseline : Nat) (counter : Nat → Nat) : Nat → Nat
  | 0 => counter 0 - baseline
  | i + 1 => counter (i + 1) - counter i

/-- Modelled from the spec (section 4.3, step 5): the sample the spin
engine records for iteration i. -/
def sampleAt (t0 period : Int) (env : SpinEnv) (i : Nat) : Sample :=
  { scheduled := scheduled_wakeup t0 period i
    actual := env.actual i
    latency := latencyAt t0 period env i
    jitter := jitterAt t0 period env i
    minor_pagefaults := rusageDelta env.minflt_base env.minflt i
    major_pagefaults := rusageDelta env.majflt_base env.majflt i }

/-- Modelled from the spec: rttest_spin_period (header lines 257-258), the
core stepping algorithm of section 4.3: one run over iterations i in
[0, iterations), producing one sample per iteration in increasing order. -/
def rttest_spin_period (t0 period : Int) (env : SpinEnv) (iterations : Nat) :
    List Sample :=
  (List.range iterations).map (sampleAt t0 period env)

/-- Modelled from the spec: rttest_spin (header line 247) runs the
configured schedule once per repetition, each repetition replaying the
stepping algorithm into its own buffer segment with its own epoch and
observed environment. -/
def rttest_spin (t0s : Nat → Int) (period : Int) (envs : Nat → SpinEnv)
    (iterations reps : Nat) : List Sample :=
  (List.range reps).flatMap fun r => rttest_spin_period (t0s r) period (envs r) iterations

/-- Scheduling-relevant state of the calling thread and process: whether
process memory is locked, and the thread's scheduling policy and priority.
The Determinism Subsystem mutates this state; failed calls must leave it
unchanged. -/
structure ThreadState where
  memory_locked : Bool
  sched_policy : Nat
  sched_priority : Nat
deriving Repr, DecidableEq

/-- Modelled from the spec (section 3, Session Context): the per-thread
session: its configuration record, its preallocated sample sequence, and
the spin-engine state. -/
structure Session where
  params : rttest_params
  sample_buffer : List Sample
  state : SpinState

/-- The zero-initialized sample the preallocated buffer is filled with. -/
def default_sample : Sample :=
  { scheduled := 0, actual := 0, latency := 0, jitter := 0
    minor_pagefaults := 0, major_pagefaults := 0 }

/-- Modelled from the spec: rttest_init (header lines 233-235, section 4.2).
Validates the configuration, preallocates the sample sequence sized
iterations * repetitions, and locks memory when requested. `alloc_ok`
says whether the buffer preallocation succeeds and `lock_permitted`
whether the caller has the privilege mlockall needs; on any failure the
thread state is returned untouched. -/
def rttest_init (params : rttest_params) (ts : ThreadState)
    (alloc_ok lock_permitted : Bool) : Except RtError Session × ThreadState :=
  if params.iterations = 0 then
    (Except.error RtError.InvalidArgument, ts)
  else if !alloc_ok then
    (Except.error RtError.ResourceExhausted, ts)
  else if params.lock_memory && !lock_permitted then
    (Except.error RtError.PermissionError, ts)
  else
    (Except.ok
      { params := params
        sample_buffer := List.replicate (params.iterations * params.reps) default_sample
        state := SpinState.Armed },
     if params.lock_memory then { ts with memory_locked := true } else ts)

/-- Modelled from the spec (section 4.3): a full session spin: the armed
session runs the configured schedule (iterations per repetition, reps
repetitions), its buffer holds exactly the recorded samples, and the
session reaches Complete. Repetition r observes epoch `t0s r` and
environment `envs r`. -/
def rttest_session_spin (s : Session) (t0s : Nat → Int) (envs : Nat → SpinEnv) :
    Session :=
  { s with
    sample_buffer :=
      rttest_spin t0s s.params.update_period.toNs envs s.params.iterations s.params.reps
    state := SpinState.Complete }

/-- SCHED_FIFO policy identifier (Linux value). -/
def SCHED_FIFO : Int := 1

/-- SCHED_RR policy identifier (Linux value). -/
def SCHED_RR : Int := 2

/-- Modelled from the spec: the smallest valid priority of a scheduling
policy (1 for the fixed-priority classes FIFO and round-robin, 0
otherwise). -/
def sched_priority_min (policy : Int) : Nat :=
  if policy = SCHED_FIFO ∨ policy = SCHED_RR then 1 else 0

/-- Modelled from the spec: the largest valid priority of a scheduling
policy ("commonly 1-99"; the header says "Max is 99"). -/
def sched_priority_max (policy : Int) : Nat :=
  if policy = SCHED_FIFO ∨ policy = SCHED_RR then 99 else 0

/-- Modelled from the spec: rttest_set_sched_priority (header lines 287-291,
section 4.1). Assigns the calling thread's scheduling policy and priority;
fails with InvalidArgument when the priority lies outside the policy's
valid range, leaving the thread state unchanged. `priv_ok` says whether
the caller has the privilege the class change needs. -/
def rttest_set_sched_priority (ts : ThreadState) (sched_priority : Nat)
    (policy : Int) (priv_ok : Bool) : Except RtError Unit × ThreadState :=
  if sched_priority < sched_priority_min policy ∨
      sched_priority_max policy < sched_priority then
    (Except.error RtError.InvalidArgument, ts)
  else if !priv_ok then
    (Except.error RtError.PermissionError, ts)
  else
    (Except.ok (),
     { ts with sched_policy := policy.toNat, sched_priority := sched_priority })

/-- struct rttest_results (src/include/rttest/rttest.h, lines 209-223):
aggregate statistics over a session's samples. The C struct stores
`latency_stddev` and `jitter_stddev` as doubles; since the square root of
a rational is in general irrational, the embedding stores the exact
population variances (the squares of those fields) as rationals, and the
means as rationals in place of doubles. -/
structure rttest_results where
  min_latency : Int
  max_latency : Int
  mean_latency : ℚ
  latency_variance : ℚ
  min_jitter : Int
  max_jitter : Int
  mean_jitter : ℚ
  jitter_variance : ℚ
  minor_pagefaults : Nat
  major_pagefaults : Nat
deriving Repr, DecidableEq

/-- Minimum of a list of integers, folded left from the first element as a
C loop over the sample buffer would; 0 on the empty list (the engine
rejects empty buffers before this is used). -/
def list_min : List Int → Int
  | [] => 0
  | x :: xs => xs.foldl min x

/-- Maximum of a list of integers, folded left from the first element. -/
def list_max : List Int → Int
  | [] => 0
  | x :: xs => xs.foldl max x

/-- Arithmetic mean of a list of integers, as a rational. -/
def list_mean (l : List Int) : ℚ :=
  (l.sum : ℚ) / (l.length : ℚ)

/-- Population variance of a list of integers: the two-pass
mean-then-variance formula, dividing by the length (not length - 1). -/
def pop_variance (l : List Int) : ℚ :=
  ((l.map fun x => ((x : ℚ) - list_mean l) ^ 2).sum) / (l.length : ℚ)

/-- The latency column of a sample sequence. -/
def latency_values (samples : List Sample) : List Int :=
  samples.map Sample.latency

/-- The jitter column of a sample sequence. -/
def jitter_values (samples : List Sample) : List Int :=
  samples.map Sample.jitter

/-- Modelled from the spec: rttest_calculate_statistics (header lines
301-304, section 4.4). Pure reduction of a completed sample sequence into
min/max/mean/population-variance of the latencies and of the jitters plus
the page-fault totals; fails with InvalidState before the session reaches
Complete or on an empty sample sequence. -/
def rttest_calculate_statistics (s : Session) : Except RtError rttest_results :=
  if s.state = SpinState.Complete then
    if s.sample_buffer.isEmpty then
      Except.error RtError.InvalidState
    else
      Except.ok
        { min_latency := list_min (latency_values s.sample_buffer)
          max_latency := list_max (latency_values s.sample_buffer)
          mean_latency := list_mean (latency_values s.sample_buffer)
          latency_variance := pop_variance (latency_values s.sample_buffer)
          min_jitter := list_min (jitter_values s.sample_buffer)
          max_jitter := list_max (jitter_values s.sample_buffer)
          mean_jitter := list_mean (jitter_values s.sample_buffer)
          jitter_variance := pop_variance (jitter_values s.sample_buffer)
          minor_pagefaults := (s.sample_buffer.map Sample.minor_pagefaults).sum
          major_pagefaults := (s.sample_buffer.map Sample.major_pagefaults).sum }
  else
    Except.error RtError.InvalidState

/-- Modelled from the header (line 304): the C entry point receives a
pointer to the results struct and must return a nonzero error code when
that pointer is NULL. `results_null` models the pointer's nullness; the
returned triple is the C status code, the (unchanged) session, and the
contents written through the pointer, if any. -/
def rttest_calculate_statistics_c (s : Session) (results_null : Bool) :
    Int × Session × Option rttest_results :=
  if results_null then
    (-1, s, none)
  else
    match rttest_calculate_statistics s with
    | Except.error _ => (-1, s, none)
    | Except.ok r => (0, s, some r)

/-- A concrete spin environment used to instantiate the theorems: actual
wakeup instants 0, 12, 19, 33 (yielding the latency sequence 0, 2, -1, 3
for epoch 0 and period 10), a minor page-fault counter advancing by one
per iteration, and a flat major page-fault counter. -/
def example_env : SpinEnv :=
  { actual := fun i => [0, 12, 19, 33].getD i 0
    minflt := fun i => i + 1
    majflt := fun _ => 0
    minflt_base := 0
    majflt_base := 0 }

/-- A concrete valid configuration record used to instantiate the
theorems. -/
def example_params : rttest_params :=
  { iterations := 2
    update_period := { tv_sec := 0, tv_nsec := 10 }
    sched_policy := 1
    sched_priority := 80
    lock_memory := false
    stack_size := 1024
    plot := 0
    reps := 3
    filename := none }

/-- A concrete thread state used to instantiate the theorems. -/
def example_ts : ThreadState :=
  { memory_locked := false, sched_policy := 0, sched_priority := 0 }

/-- The session `rttest_init example_params example_ts true true`
produces: preallocated buffer of 2 * 3 samples, armed. -/
def example_armed_session : Session :=
  { params := example_params
    sample_buffer := List.replicate 6 default_sample
    state := SpinState.Armed }

/-- The exact statistics of the example session whose latency column is
[0, 2, -1, 3] and whose jitter column is [0, 2, -3, 4]. -/
def example_results : rttest_results :=
  { min_latency := -1
    max_latency := 3
    mean_latency := 1
    latency_variance := 5 / 2
    min_jitter := -3
    max_jitter := 4
    mean_jitter := 3 / 4
    jitter_variance := 107 / 16
    minor_pagefaults := 4
    major_pagefaults := 0 }

/-- A session still in the Spinning state (not yet Complete), with the
same concrete buffer as the example session. -/
def example_spinning_session : Session :=
  { params := example_params
    sample_buffer := rttest_spin_period 0 10 example_env 4
    state := SpinState.Spinning }

/-- The example configuration with 0 iterations and memory locking
requested. -/
def example_params_zero : rttest_params :=
  { example_params with iterations := 0, lock_memory := true }

/-- A completed session whose buffer holds the four samples produced by
one spin run over `example_env`: its latency column is [0, 2, -1, 3]. -/
def example_session : Session :=
  { params := example_params
    sample_buffer := rttest_spin_period 0 10 example_env 4
    state := SpinState.Complete }

lemma foldl_min_le_init (l : List Int) (a : Int) : l.foldl min a ≤ a := by
  induction l generalizing a with
  | nil => exact le_refl a
  | cons x xs ih => exact le_trans (ih (min a x)) (min_le_left a x)

lemma foldl_min_le_mem (l : List Int) (a : Int) : ∀ x ∈ l, l.foldl min a ≤ x := by
  induction l generalizing a with
  | nil => intro x hx; cases hx
  | cons y ys ih =>
    intro x hx
    rcases List.mem_cons.mp hx with rfl | hx
    · exact le_trans (foldl_min_le_init ys (min a x)) (min_le_right a x)
    · exact ih (min a y) x hx

lemma foldl_min_mem (l : List Int) (a : Int) :
    l.foldl min a = a ∨ l.foldl min a ∈ l := by
  induction l generalizing a with
  | nil => exact Or.inl rfl
  | cons x xs ih =>
    rcases ih (min a x) with h | h
    · rcases min_choice a x with hm | hm
      · exact Or.inl (by rw [List.foldl_cons, h, hm])
      · exact Or.inr (by rw [List.foldl_cons, h, hm]; exact List.mem_cons_self x xs)
    · exact Or.inr (List.mem_cons_of_mem x h)

lemma foldl_max_init_le (l : List Int) (a : Int) : a ≤ l.foldl max a := by
  induction l generalizing a with
  | nil => exact le_refl a
  | cons x xs ih => exact le_trans (le_max_left a x) (ih (max a x))

lemma foldl_max_mem_le (l : List Int) (a : Int) : ∀ x ∈ l, x ≤ l.foldl max a := by
  induction l generalizing a with
  | nil => intro x hx; cases hx
  | cons y ys ih =>
    intro x hx
    rcases List.mem_cons.mp hx with rfl | hx
    · exact le_trans (le_max_right a x) (foldl_max_init_le ys (max a x))
    · exact ih (max a y) x hx

lemma foldl_max_mem (l : List Int) (a : Int) :
    l.foldl max a = a ∨ l.foldl max a ∈ l := by
  induction l generalizing a with
  | nil => exact Or.inl rfl
  | cons x xs ih =>
    rcases ih (max a x) with h | h
    · rcases max_choice a x with hm | hm
      · exact Or.inl (by rw [List.foldl_cons, h, hm])
      · exact Or.inr (by rw [List.foldl_cons, h, hm]; exact List.mem_cons_self x xs)
    · exact Or.inr (List.mem_cons_of_mem x h)

lemma list_min_mem {l : List Int} (h : l ≠ []) : list_min l ∈ l := by
  match l with
  | [] => exact absurd rfl h
  | x :: xs =>
    rcases foldl_min_mem xs x with h1 | h1
    · rw [list_min, h1]; exact List.mem_cons_self x xs
    · exact List.mem_cons_of_mem x (by rw [list_min]; exact h1)

lemma list_min_le (l : List Int) : ∀ x ∈ l, list_min l ≤ x := by
  match l with
  | [] => intro x hx; cases hx
  | y :: ys =>
    intro x hx
    rcases List.mem_cons.mp hx with rfl | hx
    · exact foldl_min_le_init ys x
    · exact foldl_min_le_mem ys y x hx

lemma list_max_mem {l : List Int} (h : l ≠ []) : list_max l ∈ l := by
  match l with
  | [] => exact absurd rfl h
  | x :: xs =>
    rcases foldl_max_mem xs x with h1 | h1
    · rw [list_max, h1]; exact List.mem_cons_self x xs
    · exact List.mem_cons_of_mem x (by rw [list_max]; exact h1)

lemma le_list_max (l : List Int) : ∀ x ∈ l, x ≤ list_max l := by
  match l with
  | [] => intro x hx; cases hx
  | y :: ys =>
    intro x hx
    rcases List.mem_cons.mp hx with rfl | hx
    · exact foldl_max_init_le ys x
    · exact foldl_max_mem_le ys y x hx

lemma length_rttest_spin_period (t0 p : Int) (env : SpinEnv) (n : Nat) :
    (rttest_spin_period t0 p env n).length = n := by
  simp [rttest_spin_period]

lemma length_rttest_spin (t0s : Nat → Int) (p : Int) (envs : Nat → SpinEnv)
    (n reps : Nat) : (rttest_spin t0s p envs n reps).length = reps * n := by
  induction reps with
  | zero => simp [rttest_spin]
  | succ k ih =>
    rw [rttest_spin, List.range_succ, List.flatMap_append] at *
    simp only [List.length_append, ih, List.flatMap_cons, List.flatMap_nil,
      List.append_nil, length_rttest_spin_period]
    ring

/-- C1: for every valid configuration (iterations > 0, period > 0), a
session that initialization accepted has a preallocated sample buffer of
exactly iterations * repetitions samples, and after the session completes
spinning its buffer holds exactly iterations * repetitions samples. -/
theorem rttest_init_spin_sample_count (params : rttest_params)
    (ts ts2 : ThreadState) (alloc_ok lock_permitted : Bool) (s : Session)
    (t0s : Nat → Int) (envs : Nat → SpinEnv)
    (hiter : 0 < params.iterations) (hper : 0 < params.update_period.toNs)
    (hinit : rttest_init params ts alloc_ok lock_permitted = (Except.ok s, ts2)) :
    s.sample_buffer.length = params.iterations * params.reps ∧
    (rttest_session_spin s t0s envs).sample_buffer.length =
      params.iterations * params.reps := by
  rw [rttest_init] at hinit
  split_ifs at hinit with h1 h2 h3 h4
  · simp at hinit
  · simp at hinit
  · simp at hinit
  all_goals
    simp only [Prod.mk.injEq, Except.ok.injEq] at hinit
    obtain ⟨hs, -⟩ := hinit
    subst hs
    refine ⟨by simp, ?_⟩
    have hlen := length_rttest_spin t0s params.update_period.toNs envs
      params.iterations params.reps
    simpa [rttest_session_spin, Nat.mul_comm] using hlen

/-- C1 witness: the concrete configuration with 2 iterations and 3
repetitions initializes successfully and yields exactly 6 samples both in
the preallocated and in the spun buffer. -/
theorem rttest_init_spin_sample_count_witness :
    0 < example_params.iterations ∧ 0 < example_params.update_period.toNs ∧
    rttest_init example_params example_ts true true =
      (Except.ok example_armed_session, example_ts) ∧
    example_armed_session.sample_buffer.length =
      example_params.iterations * example_params.reps ∧
    (rttest_session_spin example_armed_session (fun _ => 0)
        (fun _ => example_env)).sample_buffer.length =
      example_params.iterations * example_params.reps := by
  have h := rttest_init_spin_sample_count example_params example_ts example_ts
    true true example_armed_session (fun _ => 0) (fun _ => example_env)
    (by decide) (by decide) rfl
  exact ⟨by decide, by decide, rfl, h.1, h.2⟩

/-- C2: in one spin run over iterations i in [0, iterations), the
scheduled wakeup instant of iteration i is exactly t0 + i * period; for a
positive period the scheduled instants are strictly increasing; and the
scheduled instants do not depend on the observed actual wakeups (the
environment). -/
theorem rttest_spin_period_scheduled (t0 p : Int) (env : SpinEnv) (n : Nat) :
    ((rttest_spin_period t0 p env n).map Sample.scheduled =
      (List.range n).map fun i : Nat => t0 + (i : Int) * p) ∧
    (0 < p →
      ((rttest_spin_period t0 p env n).map Sample.scheduled).Pairwise (· < ·)) ∧
    ∀ env₂ : SpinEnv,
      (rttest_spin_period t0 p env n).map Sample.scheduled =
        (rttest_spin_period t0 p env₂ n).map Sample.scheduled := by
  have hmap : ∀ env₃ : SpinEnv,
      (rttest_spin_period t0 p env₃ n).map Sample.scheduled =
        (List.range n).map fun i : Nat => t0 + (i : Int) * p := by
    intro env₃
    simp only [rttest_spin_period, List.map_map]
    rfl
  refine ⟨hmap env, ?_, fun env₂ => (hmap env).trans (hmap env₂).symm⟩
  intro hp
  rw [hmap env]
  refine (List.pairwise_lt_range n).map _ ?_
  intro a b hab
  have hcast : (a : Int) < (b : Int) := Int.ofNat_lt.mpr hab
  exact add_lt_add_left (mul_lt_mul_of_pos_right hcast hp) t0

/-- C2 witness: for epoch 0 and period 1 the three scheduled instants of a
concrete run are strictly increasing. -/
theorem rttest_spin_period_scheduled_witness :
    (0 : Int) < 1 ∧
    ((rttest_spin_period 0 1 example_env 3).map Sample.scheduled).Pairwise
      (· < ·) :=
  ⟨by decide, (rttest_spin_period_scheduled 0 1 example_env 3).2.1 (by decide)⟩

/-- C3: the latency column of a spin run is exactly
actual i - scheduled instant i for every iteration i, and every signed
value — negative values included — is attainable at any in-range index
under some environment (no clamping to zero). -/
theorem rttest_spin_period_latency (t0 p : Int) (env : SpinEnv) (n : Nat) :
    ((rttest_spin_period t0 p env n).map Sample.latency =
      (List.range n).map fun i => env.actual i - scheduled_wakeup t0 p i) ∧
    ∀ v : Int, ∀ i : Nat, i < n → ∃ env₂ : SpinEnv,
      ((rttest_spin_period t0 p env₂ n).map Sample.latency)[i]? = some v := by
  constructor
  · simp only [rttest_spin_period, List.map_map]
    rfl
  · intro v i hi
    refine ⟨{ example_env with actual := fun j => scheduled_wakeup t0 p j + v }, ?_⟩
    simp [rttest_spin_period, List.getElem?_map, List.getElem?_range, hi,
      sampleAt, latencyAt]

/-- C3 witness: a run of one iteration whose recorded latency is the
negative value -5. -/
theorem rttest_spin_period_latency_witness :
    0 < 1 ∧ ∃ env₂ : SpinEnv,
      ((rttest_spin_period 0 10 env₂ 1).map Sample.latency)[0]? = some (-5) :=
  ⟨by decide, (rttest_spin_period_latency 0 10 example_env 1).2 (-5) 0 (by decide)⟩

/-- C4: in every spin run the sample at index 0 has jitter 0, and the
sample at every index i + 1 has jitter equal to its latency minus the
latency of the sample at index i. -/
theorem rttest_spin_period_jitter (t0 p : Int) (env : SpinEnv) (n : Nat) :
    (∀ s₀ : Sample, (rttest_spin_period t0 p env n)[0]? = some s₀ →
      s₀.jitter = 0) ∧
    ∀ i : Nat, ∀ s₁ s₂ : Sample,
      (rttest_spin_period t0 p env n)[i]? = some s₁ →
      (rttest_spin_period t0 p env n)[i + 1]? = some s₂ →
      s₂.jitter = s₂.latency - s₁.latency := by
  have hget : ∀ i : Nat, ∀ s : Sample,
      (rttest_spin_period t0 p env n)[i]? = some s → s = sampleAt t0 p env i := by
    intro i s h
    rw [List.getElem?_eq_some_iff] at h
    obtain ⟨hlt, h⟩ := h
    have hi : i < n := by
      simpa [length_rttest_spin_period] using hlt
    rw [← h]
    simp [rttest_spin_period, hi]
  constructor
  · intro s₀ h
    rw [hget 0 s₀ h]
    rfl
  · intro i s₁ s₂ h₁ h₂
    rw [hget i s₁ h₁, hget (i + 1) s₂ h₂]
    rfl

/-- C4 witness: in a concrete four-iteration run the first sample has
jitter 0 and the sample at index 2 has jitter equal to the difference of
the latencies at indices 2 and 1. -/
theorem rttest_spin_period_jitter_witness :
    ((rttest_spin_period 0 10 example_env 4)[0]? =
        some (sampleAt 0 10 example_env 0) ∧
      (sampleAt 0 10 example_env 0).jitter = 0) ∧
    (rttest_spin_period 0 10 example_env 4)[2]? =
        some (sampleAt 0 10 example_env 2) ∧
    (sampleAt 0 10 example_env 2).jitter =
      (sampleAt 0 10 example_env 2).latency -
        (sampleAt 0 10 example_env 1).latency := by
  have hget0 : (rttest_spin_period 0 10 example_env 4)[0]? =
      some (sampleAt 0 10 example_env 0) := by decide
  have hget1 : (rttest_spin_period 0 10 example_env 4)[1]? =
      some (sampleAt 0 10 example_env 1) := by decide
  have hget2 : (rttest_spin_period 0 10 example_env 4)[2]? =
      some (sampleAt 0 10 example_env 2) := by decide
  exact ⟨⟨hget0, (rttest_spin_period_jitter 0 10 example_env 4).1 _ hget0⟩,
    hget2, (rttest_spin_period_jitter 0 10 example_env 4).2 1 _ _ hget1 hget2⟩

/-- C5: on every completed session with a non-empty sample sequence the
statistics reduction succeeds and returns: a minimum and maximum of the
latency column that belong to it and bound it, its arithmetic mean
(characterized by mean * length = sum), its population variance
(characterized by variance * length = sum of squared deviations from the
mean, dividing by the full length rather than length - 1), the same four
for the jitter column, and the minor and major page-fault totals over all
samples. -/
theorem rttest_calculate_statistics_spec (s : Session)
    (hstate : s.state = SpinState.Complete) (hne : s.sample_buffer ≠ []) :
    ∃ r : rttest_results, rttest_calculate_statistics s = Except.ok r ∧
      r.min_latency ∈ latency_values s.sample_buffer ∧
      (∀ x ∈ latency_values s.sample_buffer, r.min_latency ≤ x) ∧
      r.max_latency ∈ latency_values s.sample_buffer ∧
      (∀ x ∈ latency_values s.sample_buffer, x ≤ r.max_latency) ∧
      r.mean_latency * ((latency_values s.sample_buffer).length : ℚ) =
        ((latency_values s.sample_buffer).sum : ℚ) ∧
      r.latency_variance * ((latency_values s.sample_buffer).length : ℚ) =
        ((latency_values s.sample_buffer).map
          fun x => ((x : ℚ) - r.mean_latency) ^ 2).sum ∧
      r.min_jitter ∈ jitter_values s.sample_buffer ∧
      (∀ x ∈ jitter_values s.sample_buffer, r.min_jitter ≤ x) ∧
      r.max_jitter ∈ jitter_values s.sample_buffer ∧
      (∀ x ∈ jitter_values s.sample_buffer, x ≤ r.max_jitter) ∧
      r.mean_jitter * ((jitter_values s.sample_buffer).length : ℚ) =
        ((jitter_values s.sample_buffer).sum : ℚ) ∧
      r.jitter_variance * ((jitter_values s.sample_buffer).length : ℚ) =
        ((jitter_values s.sample_buffer).map
          fun x => ((x : ℚ) - r.mean_jitter) ^ 2).sum ∧
      r.minor_pagefaults = (s.sample_buffer.map Sample.minor_pagefaults).sum ∧
      r.major_pagefaults = (s.sample_buffer.map Sample.major_pagefaults).sum := by
  have hE : s.sample_buffer.isEmpty = false := by
    simpa [List.isEmpty_iff] using hne
  have hlne : latency_values s.sample_buffer ≠ [] := by
    simpa [latency_values] using hne
  have hjne : jitter_values s.sample_buffer ≠ [] := by
    simpa [jitter_values] using hne
  have hllen : ((latency_values s.sample_buffer).length : ℚ) ≠ 0 :=
    Nat.cast_ne_zero.mpr (List.length_pos.mpr hlne).ne'
  have hjlen : ((jitter_values s.sample_buffer).length : ℚ) ≠ 0 :=
    Nat.cast_ne_zero.mpr (List.length_pos.mpr hjne).ne'
  refine ⟨_, by rw [rttest_calculate_statistics, if_pos hstate, hE]; rfl,
    list_min_mem hlne, list_min_le _, list_max_mem hlne, le_list_max _,
    div_mul_cancel₀ _ hllen, ?_,
    list_min_mem hjne, list_min_le _, list_max_mem hjne, le_list_max _,
    div_mul_cancel₀ _ hjlen, ?_, rfl, rfl⟩
  · simpa [pop_variance, list_mean] using
      div_mul_cancel₀ ((latency_values s.sample_buffer).map
        fun x => ((x : ℚ) - list_mean (latency_values s.sample_buffer)) ^ 2).sum hllen
  · simpa [pop_variance, list_mean] using
      div_mul_cancel₀ ((jitter_values s.sample_buffer).map
        fun x => ((x : ℚ) - list_mean (jitter_values s.sample_buffer)) ^ 2).sum hjlen

/-- C5 witness: on the completed session with latency column [0, 2, -1, 3]
the reduction yields min -1, max 3, mean 1, population variance 5/2; the
population standard deviation, the square root of that variance, lies
strictly between 1.58 and 1.59. -/
theorem rttest_calculate_statistics_spec_witness :
    ∃ r : rttest_results, rttest_calculate_statistics example_session = Except.ok r ∧
      r.min_latency = -1 ∧ r.max_latency = 3 ∧ r.mean_latency = 1 ∧
      r.latency_variance = 5 / 2 ∧
      (1.58 : ℝ) < Real.sqrt (r.latency_variance : ℝ) ∧
      Real.sqrt (r.latency_variance : ℝ) < 1.59 ∧
      r.minor_pagefaults = 4 ∧ r.major_pagefaults = 0 := by
  obtain ⟨r, hr, -⟩ :=
    rttest_calculate_statistics_spec example_session rfl (by decide)
  have hval : rttest_calculate_statistics example_session =
      Except.ok example_results := by
    have hlat : latency_values example_session.sample_buffer = [0, 2, -1, 3] := by
      decide
    have hjit : jitter_values example_session.sample_buffer = [0, 2, -3, 4] := by
      decide
    have hminor : example_session.sample_buffer.map Sample.minor_pagefaults =
        [1, 1, 1, 1] := by decide
    have hmajor : example_session.sample_buffer.map Sample.major_pagefaults =
        [0, 0, 0, 0] := by decide
    have hE : example_session.sample_buffer.isEmpty = false := by decide
    rw [rttest_calculate_statistics,
      if_pos (show example_session.state = SpinState.Complete from rfl)]
    simp only [hE, Bool.false_eq_true, if_false, hlat, hjit, hminor, hmajor]
    simp only [example_results, Except.ok.injEq, rttest_results.mk.injEq]
    refine ⟨by decide, by decide, ?_, ?_, by decide, by decide, ?_, ?_,
      by decide, by decide⟩
    · norm_num [list_mean]
    · norm_num [pop_variance, list_mean]
    · norm_num [list_mean]
    · norm_num [pop_variance, list_mean]
  have hre : r = example_results := by
    have h2 := hr.symm.trans hval
    simpa using h2
  subst hre
  have hcast : ((example_results.latency_variance : ℚ) : ℝ) = 5 / 2 := by
    norm_num [example_results]
  refine ⟨example_results, hr, rfl, rfl, rfl, rfl, ?_, ?_, rfl, rfl⟩
  · rw [hcast, Real.lt_sqrt (by norm_num)]
    norm_num
  · rw [hcast, Real.sqrt_lt' (by norm_num)]
    norm_num

/-- C7: requesting statistics on a session that has not reached Complete,
or whose sample sequence is empty, fails with InvalidState (and hence
returns no results record). -/
theorem rttest_calculate_statistics_invalid_state (s : Session)
    (h : s.state ≠ SpinState.Complete ∨ s.sample_buffer = []) :
    rttest_calculate_statistics s = Except.error RtError.InvalidState := by
  rcases h with h | h
  · rw [rttest_calculate_statistics, if_neg h]
  · by_cases hc : s.state = SpinState.Complete
    · rw [rttest_calculate_statistics, if_pos hc]
      simp [h]
    · rw [rttest_calculate_statistics, if_neg hc]

/-- C7 witness: requesting the reduction on the concrete session that is
still Spinning yields InvalidState. -/
theorem rttest_calculate_statistics_invalid_state_witness :
    (example_spinning_session.state ≠ SpinState.Complete ∨
      example_spinning_session.sample_buffer = []) ∧
    rttest_calculate_statistics example_spinning_session =
      Except.error RtError.InvalidState :=
  ⟨Or.inl (by decide),
   rttest_calculate_statistics_invalid_state example_spinning_session
     (Or.inl (by decide))⟩

/-- C8: for every configuration with 0 iterations, initialization fails
with InvalidArgument regardless of the other parameters, and the thread
and process state (memory locking, scheduling attributes) is returned
unchanged. -/
theorem rttest_init_zero_iterations (params : rttest_params)
    (ts : ThreadState) (alloc_ok lock_permitted : Bool)
    (h : params.iterations = 0) :
    rttest_init params ts alloc_ok lock_permitted =
      (Except.error RtError.InvalidArgument, ts) := by
  rw [rttest_init, if_pos h]

/-- C8 witness: the concrete 0-iteration configuration (which even
requests memory locking) fails with InvalidArgument and leaves the
concrete thread state untouched. -/
theorem rttest_init_zero_iterations_witness :
    example_params_zero.iterations = 0 ∧
    rttest_init example_params_zero example_ts true true =
      (Except.error RtError.InvalidArgument, example_ts) :=
  ⟨rfl, rttest_init_zero_iterations example_params_zero example_ts true true rfl⟩

/-- C9: setting a scheduling priority outside the valid range of the
chosen policy fails with InvalidArgument and leaves the calling thread's
scheduling policy and priority (its whole state) unchanged. -/
theorem rttest_set_sched_priority_out_of_range (ts : ThreadState)
    (sched_priority : Nat) (policy : Int) (priv_ok : Bool)
    (h : sched_priority < sched_priority_min policy ∨
      sched_priority_max policy < sched_priority) :
    rttest_set_sched_priority ts sched_priority policy priv_ok =
      (Except.error RtError.InvalidArgument, ts) := by
  rw [rttest_set_sched_priority, if_pos h]

/-- C9 witness: priority 100 is above the maximum 99 of SCHED_FIFO; the
call fails with InvalidArgument and returns the concrete thread state
unchanged. -/
theorem rttest_set_sched_priority_out_of_range_witness :
    sched_priority_max SCHED_FIFO < 100 ∧
    rttest_set_sched_priority example_ts 100 SCHED_FIFO true =
      (Except.error RtError.InvalidArgument, example_ts) :=
  ⟨by decide,
   rttest_set_sched_priority_out_of_range example_ts 100 SCHED_FIFO true
     (Or.inr (by decide))⟩

/-- C10: calling the C entry point of the statistics reduction with a
NULL results pointer returns a nonzero error code, writes nothing through
the pointer, and leaves the session unchanged — for every session. -/
theorem rttest_calculate_statistics_null_results (s : Session) :
    (rttest_calculate_statistics_c s true).1 ≠ 0 ∧
    (rttest_calculate_statistics_c s true).2.1 = s ∧
    (rttest_calculate_statistics_c s true).2.2 = none := by
  refine ⟨?_, rfl, rfl⟩
  simp [rttest_calculate_statistics_c]

end Rttest
